import Mathlib

/-!
Verification development for qiskit_metal/_gui/main_window.py (class Metal_gui).

The window is GUI orchestration: every user action calls methods of external
collaborators (the circuit object, the drawing utilities, the tree widgets,
the serialization functions) and updates a handful of references held by the
window.  We embed the window state as a structure of those references, the
external collaborators as an environment of oracles that either succeed or
raise a Python exception, and we record every call the window makes as an
event in a trace.  Qt dialogs are modelled by the value they returned (the
chosen filename, the message-box answer, the create-dialog fields), and Qt
plumbing calls (canvas show/hide/draw, status tips, logging) are recorded as
events that cannot fail.

A callback body yields either a normal result (final state and trace) or a
raised exception together with the state and trace at the moment of the
raise, so that partial side effects before an exception are kept.
-/

/-- A Python exception; it carries its formatted traceback text. -/
structure PyErr where
  msg : String
deriving DecidableEq, Repr

/-- Model of the traceback module formatting a caught exception
(traceback.format_exc): the exception carries its formatted traceback. -/
def traceback_format_exc (e : PyErr) : String :=
  e.msg

/-- Reference to an externally owned circuit object: the identities of its
OBJECTS mapping and of its params dictionary. -/
structure Circ where
  OBJECTS : Nat
  params : Nat
deriving DecidableEq, Repr

/-- The references held by the window: the circuit, the window's handle to
the OBJECTS mapping, the handle to the DEFAULT_OPTIONS mapping, and the
content dictionaries currently shown by the three tree widgets. -/
structure GuiState where
  circ : Circ
  _OBJECTS : Nat
  _DEFAULT_OPTIONS : Nat
  tree_content : Nat
  tree_def_ops_content : Nat
  tree_circ_ops_content : Nat
deriving DecidableEq, Repr

/-- One observable call made by the window, recorded in order. -/
inductive Event where
  | log_debug (msg : String)
  | log_info (msg : String)
  | log_error (msg : String)
  | log_panel_traceback (e : PyErr)
  | set_status_tip (msg : String)
  | canvas_hide
  | canvas_show
  | canvas_draw
  | ax_clear_me
  | draw_all_objects (objects : Nat)
  | plot_simple_gui_style
  | tree_rebuild (content : Nat)
  | tree_def_ops_rebuild (content : Nat)
  | tree_circ_ops_rebuild (content : Nat)
  | tree_change_content (content : Nat)
  | tree_def_ops_change_content (content : Nat)
  | tree_circ_ops_change_content (content : Nat)
  | make_all_objects (c : Circ)
  | clear_all_objects (c : Circ)
  | plot_connectors (c : Circ)
  | gds_draw_all (c : Circ) (filename : String)
  | save_metal (filename : String) (c : Circ)
  | load_metal (filename : String)
  | construct_metal (cls : Nat) (c : Circ) (objname : String) (options : Nat)
deriving DecidableEq, Repr

/-- The answer of the confirmation message box offered Yes and No buttons. -/
inductive MBAnswer where
  | Yes
  | No
deriving DecidableEq, Repr

/-- The external collaborators, as oracles that either succeed or raise. -/
structure Env where
  draw_all_objects : Nat → Except PyErr Unit
  plot_simple_gui_style : Except PyErr Unit
  tree_rebuild : Nat → Except PyErr Unit
  tree_def_ops_rebuild : Nat → Except PyErr Unit
  tree_circ_ops_rebuild : Nat → Except PyErr Unit
  make_all_objects : Circ → Except PyErr Unit
  clear_all_objects : Circ → Except PyErr Unit
  plot_connectors : Circ → Except PyErr Unit
  gds_draw_all : Circ → String → Except PyErr Unit
  save_metal : String → Circ → Except PyErr Unit
  load_metal : String → Except PyErr Circ
  metal_class_construct : Nat → Circ → String → Nat → Except PyErr Unit

/-- Result of running a callback body: a normal return with final state and
trace, or a raised exception with the state and trace at the raise. -/
abbrev CbResult := Except (PyErr × GuiState × List Event) (GuiState × List Event)

namespace Metal_gui

/-- Property getter OBJECTS: the handle the window holds to the circuit's
OBJECTS mapping, returned as is. -/
def OBJECTS (st : GuiState) : Nat :=
  st._OBJECTS

/-- Property getter DEFAULT_OPTIONS, returned as is. -/
def DEFAULT_OPTIONS (st : GuiState) : Nat :=
  st._DEFAULT_OPTIONS

/-- set_OBJECTS: a None argument defaults to the circuit's OBJECTS; the
reference is stored and handed to the objects tree (change_content_dict). -/
def set_OBJECTS (st : GuiState) (o : Option Nat) : GuiState × List Event :=
  match o with
  | none =>
      ({ st with _OBJECTS := st.circ.OBJECTS, tree_content := st.circ.OBJECTS },
       [Event.tree_change_content st.circ.OBJECTS])
  | some v =>
      ({ st with _OBJECTS := v, tree_content := v },
       [Event.tree_change_content v])

/-- set_DEFAULT_OPTIONS: a None argument defaults to the module-scope
DEFAULT_OPTIONS dictionary (passed here as global_DEFAULT_OPTIONS); the
reference is stored and handed to the default-options tree. -/
def set_DEFAULT_OPTIONS (global_DEFAULT_OPTIONS : Nat) (st : GuiState)
    (d : Option Nat) : GuiState × List Event :=
  match d with
  | none =>
      ({ st with _DEFAULT_OPTIONS := global_DEFAULT_OPTIONS,
                 tree_def_ops_content := global_DEFAULT_OPTIONS },
       [Event.tree_def_ops_change_content global_DEFAULT_OPTIONS])
  | some v =>
      ({ st with _DEFAULT_OPTIONS := v, tree_def_ops_content := v },
       [Event.tree_def_ops_change_content v])

/-- Modelled from the spec: the decorator catch_exception_slot_pyqt is
defined in qiskit_metal/_gui/_handle_qt_messages.py, which is not part of
the sources here.  Per the spec, failures inside UI callbacks are caught at
the callback boundary, logged with a full stack trace to the visible log
panel, and the application continues running, so the wrapper turns a raised
exception into a log-panel event and returns normally. -/
def catch_exception_slot_pyqt (r : CbResult) : GuiState × List Event :=
  match r with
  | Except.ok out => out
  | Except.error (e, st, tr) => (st, tr ++ [Event.log_panel_traceback e])

/-- Trace of re_draw up to and including the inner try around
draw_all_objects: a failure there is logged and execution continues. -/
def re_draw_trace1 (env : Env) (st : GuiState) : List Event :=
  [Event.log_debug "Redrawing", Event.set_status_tip "Redrawing",
   Event.canvas_hide, Event.ax_clear_me, Event.draw_all_objects (OBJECTS st)] ++
  (match env.draw_all_objects (OBJECTS st) with
   | Except.ok _ => []
   | Except.error e =>
       [Event.log_error (String.append "\n\n" (traceback_format_exc e))])

/-- Body of re_draw: hide the canvas, clear the axis, draw all objects
(with its own inner try), restyle, show and draw the canvas. -/
def re_draw_body (env : Env) (st : GuiState) : CbResult :=
  match env.plot_simple_gui_style with
  | Except.error e =>
      Except.error (e, st, re_draw_trace1 env st ++ [Event.plot_simple_gui_style])
  | Except.ok _ =>
      Except.ok (st, re_draw_trace1 env st ++
        [Event.plot_simple_gui_style, Event.canvas_show, Event.canvas_draw,
         Event.set_status_tip "Redrawing:DONE"])

/-- re_draw, decorated with catch_exception_slot_pyqt. -/
def re_draw (env : Env) (st : GuiState) : GuiState × List Event :=
  catch_exception_slot_pyqt (re_draw_body env st)

/-- Body of refresh_tree: rebuild the OBJECTS tree. -/
def refresh_tree_body (env : Env) (st : GuiState) : CbResult :=
  match env.tree_rebuild st.tree_content with
  | Except.error e => Except.error (e, st, [Event.tree_rebuild st.tree_content])
  | Except.ok _ => Except.ok (st, [Event.tree_rebuild st.tree_content])

/-- refresh_tree, decorated with catch_exception_slot_pyqt. -/
def refresh_tree (env : Env) (st : GuiState) : GuiState × List Event :=
  catch_exception_slot_pyqt (refresh_tree_body env st)

/-- Body of refresh_tree_default_options: rebuild the default-options tree. -/
def refresh_tree_default_options_body (env : Env) (st : GuiState) : CbResult :=
  match env.tree_def_ops_rebuild st.tree_def_ops_content with
  | Except.error e =>
      Except.error (e, st, [Event.tree_def_ops_rebuild st.tree_def_ops_content])
  | Except.ok _ =>
      Except.ok (st, [Event.tree_def_ops_rebuild st.tree_def_ops_content])

/-- refresh_tree_default_options, decorated with catch_exception_slot_pyqt. -/
def refresh_tree_default_options (env : Env) (st : GuiState) : GuiState × List Event :=
  catch_exception_slot_pyqt (refresh_tree_default_options_body env st)

/-- Body of refresh_all: run the (decorated) re_draw, refresh_tree and
refresh_tree_default_options, then rebuild the circuit-properties tree with
a direct collaborator call that may raise. -/
def refresh_all_body (env : Env) (st : GuiState) : CbResult :=
  let r1 := re_draw env st
  let r2 := refresh_tree env r1.1
  let r3 := refresh_tree_default_options env r2.1
  match env.tree_circ_ops_rebuild r3.1.tree_circ_ops_content with
  | Except.error e =>
      Except.error (e, r3.1, r1.2 ++ r2.2 ++ r3.2 ++
        [Event.tree_circ_ops_rebuild r3.1.tree_circ_ops_content])
  | Except.ok _ =>
      Except.ok (r3.1, r1.2 ++ r2.2 ++ r3.2 ++
        [Event.tree_circ_ops_rebuild r3.1.tree_circ_ops_content])

/-- refresh_all, decorated with catch_exception_slot_pyqt. -/
def refresh_all (env : Env) (st : GuiState) : GuiState × List Event :=
  catch_exception_slot_pyqt (refresh_all_body env st)

/-- Body of remake_all: log, ask the circuit to remake all objects, then
run the (decorated) re_draw. -/
def remake_all_body (env : Env) (st : GuiState) : CbResult :=
  match env.make_all_objects st.circ with
  | Except.error e =>
      Except.error (e, st, [Event.log_info "Remaking all Metal objects from options",
        Event.make_all_objects st.circ])
  | Except.ok _ =>
      Except.ok ((re_draw env st).1,
        Event.log_info "Remaking all Metal objects from options" ::
          Event.make_all_objects st.circ :: (re_draw env st).2)

/-- remake_all, decorated with catch_exception_slot_pyqt. -/
def remake_all (env : Env) (st : GuiState) : GuiState × List Event :=
  catch_exception_slot_pyqt (remake_all_body env st)

/-- Body of draw_connectors: ask the circuit to plot its connectors on the
axis, then redraw the canvas. -/
def draw_connectors_body (env : Env) (st : GuiState) : CbResult :=
  match env.plot_connectors st.circ with
  | Except.error e => Except.error (e, st, [Event.plot_connectors st.circ])
  | Except.ok _ => Except.ok (st, [Event.plot_connectors st.circ, Event.canvas_draw])

/-- draw_connectors, decorated with catch_exception_slot_pyqt. -/
def draw_connectors (env : Env) (st : GuiState) : GuiState × List Event :=
  catch_exception_slot_pyqt (draw_connectors_body env st)

/-- Body of clear_all_objects: a confirmation box is shown first (its
answer ret is an input here); only on Yes are the circuit's objects cleared
and all panels refreshed. -/
def clear_all_objects_body (env : Env) (ret : MBAnswer) (st : GuiState) : CbResult :=
  if ret = MBAnswer.Yes then
    match env.clear_all_objects st.circ with
    | Except.error e => Except.error (e, st, [Event.clear_all_objects st.circ])
    | Except.ok _ =>
        Except.ok ((refresh_all env st).1,
          Event.clear_all_objects st.circ :: (refresh_all env st).2)
  else
    Except.ok (st, [])

/-- clear_all_objects, decorated with catch_exception_slot_pyqt. -/
def clear_all_objects (env : Env) (ret : MBAnswer) (st : GuiState) : GuiState × List Event :=
  catch_exception_slot_pyqt (clear_all_objects_body env ret st)

/-- Body of action_gds_export: the save dialog returned filename (the empty
string when the user cancels); a chosen filename is delegated to the
circuit's gds_draw_all. -/
def action_gds_export_body (env : Env) (filename : String) (st : GuiState) : CbResult :=
  if filename = "" then
    Except.ok (st, [])
  else
    match env.gds_draw_all st.circ filename with
    | Except.error e => Except.error (e, st, [Event.gds_draw_all st.circ filename])
    | Except.ok _ => Except.ok (st, [Event.gds_draw_all st.circ filename])

/-- action_gds_export, decorated with catch_exception_slot_pyqt. -/
def action_gds_export (env : Env) (filename : String) (st : GuiState) : GuiState × List Event :=
  catch_exception_slot_pyqt (action_gds_export_body env filename st)

/-- Body of action_save_metal: a chosen filename is passed with the circuit
to the external save_metal, then logged. -/
def action_save_metal_body (env : Env) (filename : String) (st : GuiState) : CbResult :=
  if filename = "" then
    Except.ok (st, [])
  else
    match env.save_metal filename st.circ with
    | Except.error e => Except.error (e, st, [Event.save_metal filename st.circ])
    | Except.ok _ =>
        Except.ok (st, [Event.save_metal filename st.circ,
          Event.log_info (String.append "Successfully save metal to " filename)])

/-- action_save_metal, decorated with catch_exception_slot_pyqt. -/
def action_save_metal (env : Env) (filename : String) (st : GuiState) : GuiState × List Event :=
  catch_exception_slot_pyqt (action_save_metal_body env filename st)

/-- change_circ: point the window at the new circuit, re-point OBJECTS to
the new circuit's OBJECTS, hand the new params to the circuit-properties
tree, log, and refresh all panels.  Not decorated in the source. -/
def change_circ (env : Env) (circ : Circ) (st : GuiState) : GuiState × List Event :=
  let st1 : GuiState := { st with circ := circ }
  let r2 := set_OBJECTS st1 (some st1.circ.OBJECTS)
  let st3 : GuiState := { r2.1 with tree_circ_ops_content := st1.circ.params }
  let r4 := refresh_all env st3
  (r4.1, r2.2 ++
    (Event.tree_circ_ops_change_content st1.circ.params ::
     Event.log_info "Changed circuit, updated default dictionaries, etc." :: r4.2))

/-- Body of action_open_metal: a chosen filename is passed to the external
load_metal and the returned circuit installed via change_circ, then logged. -/
def action_open_metal_body (env : Env) (filename : String) (st : GuiState) : CbResult :=
  if filename = "" then
    Except.ok (st, [])
  else
    match env.load_metal filename with
    | Except.error e => Except.error (e, st, [Event.load_metal filename])
    | Except.ok c =>
        Except.ok ((change_circ env c st).1,
          Event.load_metal filename ::
            ((change_circ env c st).2 ++
             [Event.log_info (String.append "Successfully loaded file\n file=" filename)]))

/-- action_open_metal, decorated with catch_exception_slot_pyqt. -/
def action_open_metal (env : Env) (filename : String) (st : GuiState) : GuiState × List Event :=
  catch_exception_slot_pyqt (action_open_metal_body env filename st)

/-- The creation callback installed by add_metal_object: the create dialog
returned (dlg_result, dlg_name, dlg_options); on an accepted dialog with a
non-empty name the metal class is constructed on the circuit and all panels
are refreshed.  Not decorated in the source. -/
def create_metal_obj (env : Env) (cls : Nat) (dlg_result : Bool)
    (dlg_name : String) (dlg_options : Nat) (st : GuiState) : CbResult :=
  if dlg_result then
    if dlg_name = "" then
      Except.ok (st, [])
    else
      match env.metal_class_construct cls st.circ dlg_name dlg_options with
      | Except.error e =>
          Except.error (e, st, [Event.construct_metal cls st.circ dlg_name dlg_options])
      | Except.ok _ =>
          Except.ok ((refresh_all env st).1,
            Event.construct_metal cls st.circ dlg_name dlg_options ::
              (refresh_all env st).2)
  else
    Except.ok (st, [])

end Metal_gui

/-- A metal class found in a module: its identity and its optional _img
attribute (the image file name), absent when the class has no such
attribute. -/
structure MetalClass where
  cls : Nat
  _img : Option String
deriving DecidableEq, Repr

/-- A Python module, modelled by its attribute table (name to class). -/
abbrev PyModule := List (String × MetalClass)

/-- The toolbar-facing part of the window touched by add_metal_object: the
icons added to the toolbar (tool name, image path handed to
add_toolbar_icon, label) and the create_<tool_name> attributes (each bound
to the creation callback for a class id). -/
structure ToolbarState where
  icons : List (String × String × String)
  attrs : List (String × Nat)
deriving DecidableEq, Repr

namespace Metal_gui

/-- The groups of metal_class_name.split between the dot separators,
structurally over the character list (Python str.split with a
one-character separator keeps empty groups, and the empty string gives one
empty group). -/
def splitOnDot : List Char → List (List Char)
  | [] => [[]]
  | c :: cs =>
      if c = '.' then [] :: splitOnDot cs
      else
        match splitOnDot cs with
        | [] => [[c]]
        | g :: gs => (c :: g) :: gs

/-- metal_class_name.split('.')[-1]: the last dot-separated component. -/
def split_class_name (metal_class_name : String) : String :=
  String.mk ((splitOnDot metal_class_name.toList).getLastD [])

/-- The tool name used by add_metal_object: the given one when truthy
(non-empty), the class name otherwise. -/
def resolved_tool_name (metal_class_name : String) (tool_name : Option String) : String :=
  match tool_name with
  | none => split_class_name metal_class_name
  | some s => if s = "" then split_class_name metal_class_name else s

/-- The toolbar button label computed by add_metal_object: underscores to
spaces, a leading Metal word stripped, long labels split onto two lines. -/
def toolbar_label (tool : String) : String :=
  let label := tool.replace "_" " "
  let label := if label.startsWith "Metal " then label.drop 6 else label
  if label.length > 14 then
    String.append (label.take (label.length / 2))
      (String.append "-\n" (label.drop (label.length / 2)))
  else label

/-- The icon image chosen by add_metal_object for a class whose _img
attribute is present: imgs_path/_img when that file exists, otherwise the
fallback imgs_path/Metal_Object.png when that exists, otherwise the
original missing path; the misses only produce warnings. -/
def choose_icon_img (is_file : String → Bool) (imgs_path : String)
    (img_name : String) : String :=
  let img := String.append imgs_path (String.append "/" img_name)
  if is_file img then img
  else
    let img2 := String.append imgs_path "/Metal_Object.png"
    if is_file img2 then img2 else img

/-- The TypeError raised by Path(None) when a class has no _img attribute:
img is None and Path(img).is_file() raises before the icon is added. -/
def path_none_TypeError : PyErr :=
  { msg := "TypeError: argument should be a str or an os.PathLike object, not NoneType" }

/-- add_metal_object: import the module named by the full class path
(import_module is the oracle; a failure is the caught ImportError branch,
returning False), look the class up in the module (getattr, returning False
when it fails), then compute the label and the icon image.  When the class
has no _img attribute, img is None and Path(None).is_file() raises a
TypeError that nothing in the function catches, so the icon, the attribute
binding and the final return are never reached; otherwise the image block
only emits warnings, the toolbar icon is added, the create_<tool_name>
attribute is bound to the creation callback, and True is returned. -/
def add_metal_object (import_module : String → Option PyModule)
    (is_file : String → Bool) (imgs_path : String)
    (st : ToolbarState) (metal_class_name : String) (tool_name : Option String) :
    Except PyErr (Bool × ToolbarState) :=
  let class_name := split_class_name metal_class_name
  match import_module metal_class_name with
  | none => Except.ok (false, st)
  | some module =>
    match module.lookup class_name with
    | none => Except.ok (false, st)
    | some metal_class =>
      let tool := resolved_tool_name metal_class_name tool_name
      match metal_class._img with
      | none => Except.error path_none_TypeError
      | some img_name =>
          Except.ok (true,
            { icons := st.icons ++
                [(tool, choose_icon_img is_file imgs_path img_name, toolbar_label tool)],
              attrs := st.attrs ++ [(String.append "create_" tool, metal_class.cls)] })

/-- A logging handler, by identity. -/
abbrev Handler := Nat

/-- logger_.handlers.pop(i). -/
def handlersPop (xs : List Handler) (i : Nat) : List Handler :=
  xs.take i ++ xs.drop (i + 1)

/-- The loop of _logging_remove_handler over enumerate(logger_.handlers).
In the source the loop variable is also named handler, shadowing the
parameter, so the guard compares each scanned element with itself. -/
def removeHandlerLoop (orig : List Handler) : List Handler → Nat → List Handler
  | [], _ => orig
  | h :: rest, i => if h = h then handlersPop orig i else removeHandlerLoop orig rest (i + 1)

/-- _logging_remove_handler handler logger_handlers: scan the handler list
and pop the first entry whose guard fires, then stop. -/
def _logging_remove_handler (handler : Handler) (logger_handlers : List Handler) :
    List Handler :=
  removeHandlerLoop logger_handlers logger_handlers 0

/-- closeEvent: try to remove the window's own log handler from the Metal
logger; an error there is printed, and the parent close handling always
runs (the Bool records that super().closeEvent was reached). -/
def closeEvent (log_handler : Handler) (logger_handlers : List Handler) :
    List Handler × Bool :=
  (_logging_remove_handler log_handler logger_handlers, true)

end Metal_gui

/-- An uncaught interpreter-level exception triple: exception class,
exception instance, traceback object. -/
structure ExcInfo where
  exc_type : String
  value : String
  tb : String
deriving DecidableEq, Repr

/-- What the installed excepthook does with a triple, in order. -/
inductive HookAction where
  | log_message_to (sectionName : String) (msg : String)
  | print_exception (i : ExcInfo)
deriving DecidableEq, Repr

/-- An excepthook, by its observable actions on a triple. -/
abbrev ExcHook := ExcInfo → List HookAction

namespace Metal_gui

/-- The excepthook defined inside _setup_logging: join the formatted
traceback lines (fmt stands for traceback.format_exception), write them to
the Errors section of the log panel, and print the exception through the
standard traceback printer. -/
def gui_excepthook (fmt : ExcInfo → List String) (i : ExcInfo) : List HookAction :=
  [HookAction.log_message_to "Errors" (String.intercalate "\n" (fmt i)),
   HookAction.print_exception i]

/-- The default of the catch_exceptions keyword of _setup_logging, used by
the window setup in __init__. -/
def setup_logging_catch_exceptions_default : Bool :=
  true

/-- The sys.excepthook in effect after _setup_logging: replaced by the
window's hook exactly when catch_exceptions holds. -/
def setup_logging_excepthook (catch_exceptions : Bool)
    (fmt : ExcInfo → List String) (old_hook : ExcHook) : ExcHook :=
  if catch_exceptions then gui_excepthook fmt else old_hook

end Metal_gui

/-- A concrete circuit used to instantiate the theorems. -/
def circ0 : Circ :=
  { OBJECTS := 1, params := 2 }

/-- A second concrete circuit, distinct from circ0. -/
def circ1 : Circ :=
  { OBJECTS := 3, params := 4 }

/-- A concrete window state holding circ0. -/
def st0 : GuiState :=
  { circ := circ0, _OBJECTS := 1, _DEFAULT_OPTIONS := 9,
    tree_content := 1, tree_def_ops_content := 9, tree_circ_ops_content := 2 }

/-- A concrete environment in which every collaborator call succeeds and
load_metal returns circ0. -/
def env0 : Env :=
  { draw_all_objects := fun _ => Except.ok (),
    plot_simple_gui_style := Except.ok (),
    tree_rebuild := fun _ => Except.ok (),
    tree_def_ops_rebuild := fun _ => Except.ok (),
    tree_circ_ops_rebuild := fun _ => Except.ok (),
    make_all_objects := fun _ => Except.ok (),
    clear_all_objects := fun _ => Except.ok (),
    plot_connectors := fun _ => Except.ok (),
    gds_draw_all := fun _ _ => Except.ok (),
    save_metal := fun _ _ => Except.ok (),
    load_metal := fun _ => Except.ok circ0,
    metal_class_construct := fun _ _ _ _ => Except.ok () }

/-- Like env0, but load_metal returns circ1. -/
def env1 : Env :=
  { env0 with load_metal := fun _ => Except.ok circ1 }

/-- A concrete metal class without an _img attribute. -/
def mcNoImg : MetalClass :=
  { cls := 3, _img := none }

/-- A concrete import oracle under which objects.Metal_Fake imports to a
module holding the class Metal_Fake, which has no _img attribute. -/
def impNoImg : String → Option PyModule := fun s =>
  if s = "objects.Metal_Fake" then some [("Metal_Fake", mcNoImg)] else none

namespace Metal_gui

/-- The wrapper returns the body's result on a normal return, and on a
raised exception it logs the traceback to the log panel and returns the
state at the raise. -/
theorem catch_spec (r : CbResult) :
    (∃ out, r = Except.ok out ∧ catch_exception_slot_pyqt r = out) ∨
    (∃ e st tr, r = Except.error (e, st, tr) ∧
      catch_exception_slot_pyqt r = (st, tr ++ [Event.log_panel_traceback e])) := by
  match r with
  | Except.ok out => exact Or.inl ⟨out, rfl, rfl⟩
  | Except.error (e, st, tr) => exact Or.inr ⟨e, st, tr, rfl, rfl⟩

/-- re_draw never changes the window's references. -/
theorem re_draw_fst (env : Env) (st : GuiState) : (re_draw env st).1 = st := by
  unfold re_draw re_draw_body catch_exception_slot_pyqt
  cases env.plot_simple_gui_style <;> rfl

/-- refresh_tree never changes the window's references. -/
theorem refresh_tree_fst (env : Env) (st : GuiState) : (refresh_tree env st).1 = st := by
  unfold refresh_tree refresh_tree_body catch_exception_slot_pyqt
  cases env.tree_rebuild st.tree_content <;> rfl

/-- refresh_tree_default_options never changes the window's references. -/
theorem refresh_tree_default_options_fst (env : Env) (st : GuiState) :
    (refresh_tree_default_options env st).1 = st := by
  unfold refresh_tree_default_options refresh_tree_default_options_body
    catch_exception_slot_pyqt
  cases env.tree_def_ops_rebuild st.tree_def_ops_content <;> rfl

/-- refresh_all never changes the window's references. -/
theorem refresh_all_fst (env : Env) (st : GuiState) : (refresh_all env st).1 = st := by
  unfold refresh_all refresh_all_body catch_exception_slot_pyqt
  simp only [re_draw_fst, refresh_tree_fst, refresh_tree_default_options_fst]
  cases env.tree_circ_ops_rebuild st.tree_circ_ops_content <;> rfl

/-- action_save_metal never changes the window's references. -/
theorem action_save_metal_fst (env : Env) (filename : String) (st : GuiState) :
    (action_save_metal env filename st).1 = st := by
  unfold action_save_metal action_save_metal_body catch_exception_slot_pyqt
  by_cases h : filename = ""
  · rw [if_pos h]
  · rw [if_neg h]
    cases env.save_metal filename st.circ <;> rfl

/-- The state after change_circ: the new circuit installed, OBJECTS
re-pointed, the circuit-properties tree content replaced. -/
theorem change_circ_fst (env : Env) (c : Circ) (st : GuiState) :
    (change_circ env c st).1 =
      { st with circ := c, _OBJECTS := c.OBJECTS, tree_content := c.OBJECTS,
                tree_circ_ops_content := c.params } := by
  unfold change_circ set_OBJECTS
  simp only [refresh_all_fst]

/-- Claim C1: for every UI callback of the window (re_draw, refresh_tree,
refresh_tree_default_options, refresh_all, remake_all, draw_connectors,
clear_all_objects, action_gds_export, action_save_metal, action_open_metal)
and for every exception raised inside it, the exception is caught at the
callback boundary, a full stack trace is logged to the log panel, and the
callback returns normally (its result is an ordinary state and trace), so
no exception propagates out of the callback. -/
theorem claim1_callbacks_catch_exceptions (env : Env) (st : GuiState)
    (ret : MBAnswer) (filename : String) :
    ((∃ out, re_draw_body env st = Except.ok out ∧ re_draw env st = out) ∨
      (∃ e st' tr, re_draw_body env st = Except.error (e, st', tr) ∧
        re_draw env st = (st', tr ++ [Event.log_panel_traceback e]))) ∧
    ((∃ out, refresh_tree_body env st = Except.ok out ∧ refresh_tree env st = out) ∨
      (∃ e st' tr, refresh_tree_body env st = Except.error (e, st', tr) ∧
        refresh_tree env st = (st', tr ++ [Event.log_panel_traceback e]))) ∧
    ((∃ out, refresh_tree_default_options_body env st = Except.ok out ∧
        refresh_tree_default_options env st = out) ∨
      (∃ e st' tr, refresh_tree_default_options_body env st = Except.error (e, st', tr) ∧
        refresh_tree_default_options env st = (st', tr ++ [Event.log_panel_traceback e]))) ∧
    ((∃ out, refresh_all_body env st = Except.ok out ∧ refresh_all env st = out) ∨
      (∃ e st' tr, refresh_all_body env st = Except.error (e, st', tr) ∧
        refresh_all env st = (st', tr ++ [Event.log_panel_traceback e]))) ∧
    ((∃ out, remake_all_body env st = Except.ok out ∧ remake_all env st = out) ∨
      (∃ e st' tr, remake_all_body env st = Except.error (e, st', tr) ∧
        remake_all env st = (st', tr ++ [Event.log_panel_traceback e]))) ∧
    ((∃ out, draw_connectors_body env st = Except.ok out ∧ draw_connectors env st = out) ∨
      (∃ e st' tr, draw_connectors_body env st = Except.error (e, st', tr) ∧
        draw_connectors env st = (st', tr ++ [Event.log_panel_traceback e]))) ∧
    ((∃ out, clear_all_objects_body env ret st = Except.ok out ∧
        clear_all_objects env ret st = out) ∨
      (∃ e st' tr, clear_all_objects_body env ret st = Except.error (e, st', tr) ∧
        clear_all_objects env ret st = (st', tr ++ [Event.log_panel_traceback e]))) ∧
    ((∃ out, action_gds_export_body env filename st = Except.ok out ∧
        action_gds_export env filename st = out) ∨
      (∃ e st' tr, action_gds_export_body env filename st = Except.error (e, st', tr) ∧
        action_gds_export env filename st = (st', tr ++ [Event.log_panel_traceback e]))) ∧
    ((∃ out, action_save_metal_body env filename st = Except.ok out ∧
        action_save_metal env filename st = out) ∨
      (∃ e st' tr, action_save_metal_body env filename st = Except.error (e, st', tr) ∧
        action_save_metal env filename st = (st', tr ++ [Event.log_panel_traceback e]))) ∧
    ((∃ out, action_open_metal_body env filename st = Except.ok out ∧
        action_open_metal env filename st = out) ∨
      (∃ e st' tr, action_open_metal_body env filename st = Except.error (e, st', tr) ∧
        action_open_metal env filename st = (st', tr ++ [Event.log_panel_traceback e]))) :=
  ⟨catch_spec _, catch_spec _, catch_spec _, catch_spec _, catch_spec _,
   catch_spec _, catch_spec _, catch_spec _, catch_spec _, catch_spec _⟩

/-- Claim C2: after window setup with default arguments
(catch_exceptions=True), sys.excepthook is replaced by a function that, for
every exception triple, writes the formatted traceback (the joined lines of
the standard formatter) to the Errors section of the window's log panel and
also prints it via the standard traceback printer. -/
theorem claim2_excepthook_to_log_panel (fmt : ExcInfo → List String)
    (old_hook : ExcHook) (i : ExcInfo) :
    setup_logging_excepthook setup_logging_catch_exceptions_default fmt old_hook i =
      [HookAction.log_message_to "Errors" (String.intercalate "\n" (fmt i)),
       HookAction.print_exception i] :=
  rfl

/-- Claim C6: the refresh operations (re_draw, refresh_tree,
refresh_tree_default_options, refresh_all) leave the OBJECTS mapping, the
DEFAULT_OPTIONS mapping and the circuit reference of the window unchanged,
and the OBJECTS and DEFAULT_OPTIONS property getters return the very
reference that was set. -/
theorem claim6_display_not_transform (env : Env) (st : GuiState) (o d gd : Nat) :
    (re_draw env st).1.circ = st.circ ∧
    (re_draw env st).1._OBJECTS = st._OBJECTS ∧
    (re_draw env st).1._DEFAULT_OPTIONS = st._DEFAULT_OPTIONS ∧
    (refresh_tree env st).1.circ = st.circ ∧
    (refresh_tree env st).1._OBJECTS = st._OBJECTS ∧
    (refresh_tree env st).1._DEFAULT_OPTIONS = st._DEFAULT_OPTIONS ∧
    (refresh_tree_default_options env st).1.circ = st.circ ∧
    (refresh_tree_default_options env st).1._OBJECTS = st._OBJECTS ∧
    (refresh_tree_default_options env st).1._DEFAULT_OPTIONS = st._DEFAULT_OPTIONS ∧
    (refresh_all env st).1.circ = st.circ ∧
    (refresh_all env st).1._OBJECTS = st._OBJECTS ∧
    (refresh_all env st).1._DEFAULT_OPTIONS = st._DEFAULT_OPTIONS ∧
    OBJECTS ((set_OBJECTS st (some o)).1) = o ∧
    DEFAULT_OPTIONS ((set_DEFAULT_OPTIONS gd st (some d)).1) = d := by
  simp [re_draw_fst, refresh_tree_fst, refresh_tree_default_options_fst,
    refresh_all_fst, OBJECTS, DEFAULT_OPTIONS, set_OBJECTS, set_DEFAULT_OPTIONS]

/-- Claim C8 (code bug): closeEvent is meant to remove the window's own log
handler from the Metal logger's handler list and no other; with handler
list [0, 1] and own handler 1, the code instead removes handler 0 and keeps
handler 1, because the loop variable of _logging_remove_handler shadows the
handler parameter and the guard compares each element with itself, so the
first handler in the list is always the one popped. -/
theorem claim8_close_removes_wrong_handler :
    _logging_remove_handler 1 [0, 1] = [1] ∧ closeEvent 1 [0, 1] = ([1], true) :=
  ⟨rfl, rfl⟩

/-- Claim C9: clear_all_objects asks for confirmation first, and on any
answer other than Yes it performs no state change at all: no collaborator
call, no refresh, and the window state is returned unchanged. -/
theorem claim9_clear_requires_confirmation (env : Env) (st : GuiState)
    (ret : MBAnswer) (h : ret ≠ MBAnswer.Yes) :
    clear_all_objects env ret st = (st, []) := by
  unfold clear_all_objects clear_all_objects_body catch_exception_slot_pyqt
  rw [if_neg h]

/-- Witness for claim C9 at the concrete No answer. -/
theorem claim9_witness : clear_all_objects env0 MBAnswer.No st0 = (st0, []) :=
  claim9_clear_requires_confirmation env0 st0 MBAnswer.No (by decide)

/-- Claim C3: each user action calls its collaborator method and then
requests a refresh: remake_all calls make_all_objects on the circuit and
then runs re_draw; clear_all_objects, when confirmed, calls the circuit's
clear_all_objects and then refresh_all; the creation callback, when the
dialog is accepted with a non-empty name, constructs the object on the
circuit and then runs refresh_all. -/
theorem claim3_action_then_refresh (env : Env) (st : GuiState) (cls opts : Nat)
    (objname : String)
    (hmake : env.make_all_objects st.circ = Except.ok ())
    (hclear : env.clear_all_objects st.circ = Except.ok ())
    (hname : objname ≠ "")
    (hcons : env.metal_class_construct cls st.circ objname opts = Except.ok ()) :
    remake_all env st = ((re_draw env st).1,
      Event.log_info "Remaking all Metal objects from options" ::
        Event.make_all_objects st.circ :: (re_draw env st).2) ∧
    clear_all_objects env MBAnswer.Yes st = ((refresh_all env st).1,
      Event.clear_all_objects st.circ :: (refresh_all env st).2) ∧
    create_metal_obj env cls true objname opts st = Except.ok ((refresh_all env st).1,
      Event.construct_metal cls st.circ objname opts :: (refresh_all env st).2) := by
  refine ⟨?_, ?_, ?_⟩
  · unfold remake_all remake_all_body catch_exception_slot_pyqt
    rw [hmake]
  · unfold clear_all_objects clear_all_objects_body catch_exception_slot_pyqt
    rw [if_pos rfl, hclear]
  · unfold create_metal_obj
    rw [if_pos rfl, if_neg hname, hcons]

/-- Witness for claim C3 at concrete inputs where every collaborator call
succeeds. -/
theorem claim3_witness :
    remake_all env0 st0 = ((re_draw env0 st0).1,
      Event.log_info "Remaking all Metal objects from options" ::
        Event.make_all_objects st0.circ :: (re_draw env0 st0).2) ∧
    clear_all_objects env0 MBAnswer.Yes st0 = ((refresh_all env0 st0).1,
      Event.clear_all_objects st0.circ :: (refresh_all env0 st0).2) ∧
    create_metal_obj env0 5 true "q1" 7 st0 = Except.ok ((refresh_all env0 st0).1,
      Event.construct_metal 5 st0.circ "q1" 7 :: (refresh_all env0 st0).2) :=
  claim3_action_then_refresh env0 st0 5 7 "q1" rfl rfl (by decide) rfl

/-- Claim C4: a non-empty filename chosen in the dialog makes the save
action call save_metal(filename, circ), the open action call
load_metal(filename), and the GDS export call gds_draw_all(filename) on the
circuit; the empty filename (user cancelled) makes each of the three
actions call nothing and change no window state. -/
theorem claim4_file_dialog_actions (env : Env) (st : GuiState) (f : String)
    (hf : f ≠ "") :
    Event.save_metal f st.circ ∈ (action_save_metal env f st).2 ∧
    Event.load_metal f ∈ (action_open_metal env f st).2 ∧
    Event.gds_draw_all st.circ f ∈ (action_gds_export env f st).2 ∧
    action_save_metal env "" st = (st, []) ∧
    action_open_metal env "" st = (st, []) ∧
    action_gds_export env "" st = (st, []) := by
  refine ⟨?_, ?_, ?_, rfl, rfl, rfl⟩
  · unfold action_save_metal action_save_metal_body catch_exception_slot_pyqt
    rw [if_neg hf]
    cases h : env.save_metal f st.circ <;> simp [h]
  · unfold action_open_metal action_open_metal_body catch_exception_slot_pyqt
    rw [if_neg hf]
    cases h : env.load_metal f <;> simp [h]
  · unfold action_gds_export action_gds_export_body catch_exception_slot_pyqt
    rw [if_neg hf]
    cases h : env.gds_draw_all st.circ f <;> simp [h]

/-- Witness for claim C4 at a concrete non-empty filename. -/
theorem claim4_witness :
    Event.save_metal "out.metal" st0.circ ∈ (action_save_metal env0 "out.metal" st0).2 ∧
    Event.load_metal "out.metal" ∈ (action_open_metal env0 "out.metal" st0).2 ∧
    Event.gds_draw_all st0.circ "out.metal" ∈ (action_gds_export env0 "out.metal" st0).2 ∧
    action_save_metal env0 "" st0 = (st0, []) ∧
    action_open_metal env0 "" st0 = (st0, []) ∧
    action_gds_export env0 "" st0 = (st0, []) :=
  claim4_file_dialog_actions env0 st0 "out.metal" (by decide)

/-- Claim C5: change_circ sets the window's circuit reference to the new
circuit, re-points the window's OBJECTS reference to its OBJECTS, updates
the circuit-properties tree to its params, and refreshes all panels; and
the open action performs change_circ on the circuit returned by
load_metal. -/
theorem claim5_change_circ (env : Env) (c : Circ) (st : GuiState) (f : String)
    (hf : f ≠ "") (hload : env.load_metal f = Except.ok c) :
    (change_circ env c st).1.circ = c ∧
    (change_circ env c st).1._OBJECTS = c.OBJECTS ∧
    (change_circ env c st).1.tree_circ_ops_content = c.params ∧
    change_circ env c st =
      ((refresh_all env { st with circ := c, _OBJECTS := c.OBJECTS,
                                  tree_content := c.OBJECTS,
                                  tree_circ_ops_content := c.params }).1,
        Event.tree_change_content c.OBJECTS ::
          Event.tree_circ_ops_change_content c.params ::
          Event.log_info "Changed circuit, updated default dictionaries, etc." ::
          (refresh_all env { st with circ := c, _OBJECTS := c.OBJECTS,
                                     tree_content := c.OBJECTS,
                                     tree_circ_ops_content := c.params }).2) ∧
    action_open_metal env f st =
      ((change_circ env c st).1,
        Event.load_metal f :: ((change_circ env c st).2 ++
          [Event.log_info (String.append "Successfully loaded file\n file=" f)])) := by
  refine ⟨?_, ?_, ?_, ?_, ?_⟩
  · rw [change_circ_fst]
  · rw [change_circ_fst]
  · rw [change_circ_fst]
  · rfl
  · unfold action_open_metal action_open_metal_body catch_exception_slot_pyqt
    rw [if_neg hf, hload]

/-- Witness for claim C5: loading circ1 into a window holding circ0. -/
theorem claim5_witness :
    (change_circ env1 circ1 st0).1.circ = circ1 ∧
    (change_circ env1 circ1 st0).1._OBJECTS = circ1.OBJECTS ∧
    (change_circ env1 circ1 st0).1.tree_circ_ops_content = circ1.params ∧
    change_circ env1 circ1 st0 =
      ((refresh_all env1 { st0 with circ := circ1, _OBJECTS := circ1.OBJECTS,
                                    tree_content := circ1.OBJECTS,
                                    tree_circ_ops_content := circ1.params }).1,
        Event.tree_change_content circ1.OBJECTS ::
          Event.tree_circ_ops_change_content circ1.params ::
          Event.log_info "Changed circuit, updated default dictionaries, etc." ::
          (refresh_all env1 { st0 with circ := circ1, _OBJECTS := circ1.OBJECTS,
                                       tree_content := circ1.OBJECTS,
                                       tree_circ_ops_content := circ1.params }).2) ∧
    action_open_metal env1 "saved.metal" st0 =
      ((change_circ env1 circ1 st0).1,
        Event.load_metal "saved.metal" :: ((change_circ env1 circ1 st0).2 ++
          [Event.log_info (String.append "Successfully loaded file\n file="
            "saved.metal")])) :=
  claim5_change_circ env1 circ1 st0 "saved.metal" (by decide) rfl

/-- Claim C7: assuming the external serialization functions are coherent
(saving circuit c under filename f succeeded and loading f returns c), the
save action followed by the open action with the same chosen filename
leaves the window holding a circuit equal to the one it held before. -/
theorem claim7_save_load_roundtrip (env : Env) (st : GuiState) (f : String)
    (hf : f ≠ "") (hsave : env.save_metal f st.circ = Except.ok ())
    (hload : env.load_metal f = Except.ok st.circ) :
    ((action_open_metal env f ((action_save_metal env f st).1)).1).circ = st.circ := by
  rw [action_save_metal_fst]
  unfold action_open_metal action_open_metal_body catch_exception_slot_pyqt
  rw [if_neg hf, hload]
  show (change_circ env st.circ st).1.circ = st.circ
  rw [change_circ_fst]

/-- Witness for claim C7 with the concrete coherent environment env0. -/
theorem claim7_witness :
    ((action_open_metal env0 "rt.metal"
      ((action_save_metal env0 "rt.metal" st0).1)).1).circ = st0.circ :=
  claim7_save_load_roundtrip env0 st0 "rt.metal" (by decide) rfl rfl

/-- Counterexample to claim C10 as stated: at a concrete input where the
module imports and the class lookup succeeds, but the class has no _img
attribute, add_metal_object raises the TypeError from Path(None) instead of
adding the toolbar icon, binding the create_<tool_name> attribute, and
returning true. -/
theorem claim10_counterexample :
    impNoImg "objects.Metal_Fake" = some [("Metal_Fake", mcNoImg)] ∧
    List.lookup (split_class_name "objects.Metal_Fake")
      [("Metal_Fake", mcNoImg)] = some mcNoImg ∧
    mcNoImg._img = none ∧
    add_metal_object impNoImg (fun _ => true) "_imgs"
      { icons := [], attrs := [] } "objects.Metal_Fake" none =
      Except.error path_none_TypeError :=
  ⟨rfl, rfl, rfl, rfl⟩

/-- Claim C10 (amended): add_metal_object returns false and adds nothing to
the window (no toolbar icon, no create_<tool_name> attribute) whenever
importing the named module fails or the class cannot be found in the
module; when import and lookup succeed and the class has an _img attribute
it adds the toolbar icon, binds the create_<tool_name> attribute to the
creation callback for the class, and returns true (missing image files only
produce warnings); when the class has no _img attribute, the TypeError from
Path(None).is_file() propagates out before the icon, the attribute and the
return are reached, so nothing is added. -/
theorem claim10_add_metal_object (imp : String → Option PyModule)
    (is_file : String → Bool) (imgs_path : String)
    (st : ToolbarState) (mcn : String) (tn : Option String) :
    (add_metal_object imp is_file imgs_path st mcn tn = Except.ok (false, st) ∧
      (imp mcn = none ∨
        ∃ m, imp mcn = some m ∧ m.lookup (split_class_name mcn) = none)) ∨
    (∃ m mc img_name, imp mcn = some m ∧
      m.lookup (split_class_name mcn) = some mc ∧ mc._img = some img_name ∧
      add_metal_object imp is_file imgs_path st mcn tn = Except.ok (true,
        { icons := st.icons ++
            [(resolved_tool_name mcn tn, choose_icon_img is_file imgs_path img_name,
              toolbar_label (resolved_tool_name mcn tn))],
          attrs := st.attrs ++
            [(String.append "create_" (resolved_tool_name mcn tn), mc.cls)] })) ∨
    (∃ m mc, imp mcn = some m ∧ m.lookup (split_class_name mcn) = some mc ∧
      mc._img = none ∧
      add_metal_object imp is_file imgs_path st mcn tn =
        Except.error path_none_TypeError) := by
  cases h : imp mcn with
  | none =>
      refine Or.inl ⟨?_, Or.inl rfl⟩
      unfold add_metal_object
      rw [h]
  | some m =>
      cases hl : m.lookup (split_class_name mcn) with
      | none =>
          refine Or.inl ⟨?_, Or.inr ⟨m, rfl, hl⟩⟩
          unfold add_metal_object
          rw [h]
          simp only [hl]
      | some mc =>
          cases hi : mc._img with
          | none =>
              refine Or.inr (Or.inr ⟨m, mc, rfl, hl, hi, ?_⟩)
              unfold add_metal_object
              rw [h]
              simp only [hl, hi]
          | some img_name =>
              refine Or.inr (Or.inl ⟨m, mc, img_name, rfl, hl, hi, ?_⟩)
              unfold add_metal_object
              rw [h]
              simp only [hl, hi]

end Metal_gui
